import Mathlib

/-!
Verification of the SLA calculation engine of the portalevoquefitness helpdesk
backend against its natural-language specification.

Shallow embedding conventions:
* An instant is an integer number of minutes counted from the SLA cutover
  epoch 2026-02-16 00:00 (a Monday).  A calendar date is the integer number of
  days from that epoch; `t / 1440` is the date of instant `t` and `t % 1440`
  its time of day in minutes (integer division and remainder on `Int` floor
  for the positive divisors used here, matching Python's date arithmetic).
* The weekday of date `d` is `d % 7`, with 0 = Monday … 6 = Sunday, because
  the epoch falls on a Monday; `weekday < 5` is Monday-Friday as in Python.
* Fractional hours are exact rationals (`ℚ`); `seconds/3600` in the source
  becomes `minutes/60`.  Python's `round(x, n)` is modelled as rounding
  `x * 10^n` to the nearest integer.  (Python rounds ties to even on binary
  floats; at the sub-second granularity used here no exact tie can occur, so
  the difference is immaterial and absorbed by the tolerance wording of the
  spec.)
* Database accessors become explicit parameters: the active-configuration
  lookup is a function `String → Option ConfigSLA`, the pause rows a list,
  `datetime.utcnow()` an explicit `agora : Int` argument.
-/

/-- Python `round(x, 4)` on exact rationals. -/
def round4 (q : ℚ) : ℚ := ((round (q * 10000) : ℤ) : ℚ) / 10000

/-- Python `round(x, 2)` on exact rationals. -/
def round2 (q : ℚ) : ℚ := ((round (q * 100) : ℤ) : ℚ) / 100

/-- Python `round(x, 1)` on exact rationals. -/
def round1 (q : ℚ) : ℚ := ((round (q * 10) : ℤ) : ℚ) / 10

namespace Metricas

/-! Embedding of `backend/modules/sla/metrics.py`. -/

/-- `SLA_DATA_INICIO = datetime(2026, 2, 16)`: the epoch of the embedding. -/
def SLA_DATA_INICIO : Int := 0

/-- `HORA_INICIO = time(8, 0)` in minutes of the day. -/
def HORA_INICIO : Int := 480

/-- `HORA_FIM = time(18, 0)` in minutes of the day. -/
def HORA_FIM : Int := 1080

def STATUS_PAUSADOS : List String := ["Aguardando"]

def STATUS_ATIVOS : List String := ["Aberto", "Em atendimento"]

def STATUS_FINAIS : List String := ["Concluído", "Expirado"]

/-- `_eh_dia_util(d)`: `d.weekday() < 5`. -/
def ehDiaUtil (d : Int) : Bool := d % 7 < 5

/-- One iteration of the day loop of `_horas_uteis`: the working time that
date `d` contributes to the span from `inicio` to `fim`
(`j_ini = max(datetime.combine(current, HORA_INICIO), inicio)`,
`j_fim = min(datetime.combine(current, HORA_FIM), fim)`). -/
def contribDia (d inicio fim : Int) : ℚ :=
  if ehDiaUtil d then
    let jIni := max (d * 1440 + HORA_INICIO) inicio
    let jFim := min (d * 1440 + HORA_FIM) fim
    if jIni < jFim then ((jFim - jIni : Int) : ℚ) / 60 else 0
  else 0

/-- The `while current <= fim.date()` loop of `_horas_uteis`, run for `n`
days starting at date `d`. -/
def somaDias : Nat → Int → Int → Int → ℚ
  | 0, _, _, _ => 0
  | n + 1, d, inicio, fim => contribDia d inicio fim + somaDias n (d + 1) inicio fim

/-- `_horas_uteis(inicio, fim)`: business hours between two instants.
The start is clamped to `SLA_DATA_INICIO`, an empty or reversed range gives 0,
and the day-by-day accumulation is rounded to 4 decimal places. -/
def horasUteis (inicio fim : Int) : ℚ :=
  let i := if inicio < SLA_DATA_INICIO then SLA_DATA_INICIO else inicio
  if i ≥ fim then 0
  else round4 (somaDias ((fim / 1440 - i / 1440).toNat + 1) (i / 1440) i fim)

/-- The pause loop of `_horas_uteis_com_pausas`: total business hours of the
intersections of the pause intervals with the span from `inicio` to `fim`.
An open pause (`fim = none`) ends at `agora` (`datetime.utcnow()`). -/
def pausadoTotal (inicio fim agora : Int) : List (Int × Option Int) → ℚ
  | [] => 0
  | (pIni, pFim) :: resto =>
    let pFimReal := pFim.getD agora
    let i2 := max pIni inicio
    let f2 := min pFimReal fim
    (if i2 < f2 then horasUteis i2 f2 else 0) + pausadoTotal inicio fim agora resto

/-- `_horas_uteis_com_pausas(inicio, fim, pausas)`: gross business hours minus
paused business hours (floored at 0), and the paused business hours. -/
def horasUteisComPausas (inicio fim : Int) (pausas : List (Int × Option Int))
    (agora : Int) : ℚ × ℚ :=
  let bruto := horasUteis inicio fim
  let pausado := pausadoTotal inicio fim agora pausas
  (round4 (max 0 (bruto - pausado)), round4 pausado)

/-- One row of the dictionary built by `ServicoMetricasSLA._configs`, keyed by
lowercased priority: response limit, resolution limit, risk percentage. -/
structure ConfigSLA where
  resposta : ℚ
  resolucao : ℚ
  risco : ℚ

/-- The fields of `ti.models.chamado.Chamado` read by the SLA metrics service.
Instants are minutes from the epoch; nullable columns are `Option`. -/
structure Chamado where
  id : Nat
  codigo : String
  prioridade : Option String
  status : Option String
  data_abertura : Option Int
  data_primeira_resposta : Option Int
  data_conclusao : Option Int
  cancelado_em : Option Int
  deletado_em : Option Int

/-- The dictionary returned by `ServicoMetricasSLA.calcular_sla_chamado`. -/
structure ResultadoSLA where
  chamado_id : Nat
  codigo : String
  prioridade : Option String
  status : String
  pausado : Bool
  ativo : Bool
  resolucao_trabalhado_horas : ℚ
  resolucao_pausado_horas : ℚ
  resolucao_limite_horas : ℚ
  percentual_resolucao : ℚ
  resolucao_em_dia : Bool
  resolucao_em_risco : Bool
  resolucao_vencida : Bool
  resposta_trabalhado_horas : ℚ
  resposta_pausado_horas : ℚ
  resposta_limite_horas : ℚ
  percentual_resposta : ℚ
  resposta_em_dia : Bool
  resposta_em_risco : Bool
  resposta_vencida : Bool

/-- `cfg = configs.get(key) or configs.get("normal")` with
`key = (chamado.prioridade or "normal").lower()`. -/
def configLookup (configs : String → Option ConfigSLA) (chamado : Chamado) :
    Option ConfigSLA :=
  match configs ((chamado.prioridade.getD "normal").toLower) with
  | some cfg => some cfg
  | none => configs "normal"

/-- `ServicoMetricasSLA.calcular_sla_chamado(chamado)`.  The active
configuration dictionary, the ticket's pause rows and `datetime.utcnow()` are
explicit parameters.  Returns `none` when the open timestamp is missing or
before the cutover epoch, or when no configuration (not even the `normal`
fallback) matches the ticket's priority. -/
def calcularSlaChamado (configs : String → Option ConfigSLA)
    (pausas : List (Int × Option Int)) (agora : Int) (chamado : Chamado) :
    Option ResultadoSLA :=
  match chamado.data_abertura with
  | none => none
  | some abertura =>
    if abertura < SLA_DATA_INICIO then none
    else
      match configLookup configs chamado with
      | none => none
      | some cfg =>
        let limResp := cfg.resposta
        let limRes := cfg.resolucao
        let pctRisco := cfg.risco
        let status := chamado.status.getD "Aberto"
        let pausado := STATUS_PAUSADOS.contains status
        let ehFinal := STATUS_FINAIS.contains status
        let dataRef0 :=
          (match chamado.data_conclusao with
           | some t => some t
           | none => chamado.cancelado_em).getD agora
        let dataRef := if ehFinal then dataRef0 else agora
        let resPar := horasUteisComPausas abertura dataRef pausas agora
        let resTrab := resPar.1
        let resPaus := resPar.2
        let pctRes := if limRes > 0 then round1 (resTrab / limRes * 100) else 0
        let resVenc := decide (resTrab ≥ limRes) && !ehFinal
        let resRisco := decide (pctRes ≥ pctRisco) && !resVenc && !ehFinal
        let respPar :=
          match chamado.data_primeira_resposta with
          | some dpr => horasUteisComPausas abertura dpr pausas agora
          | none => horasUteisComPausas abertura dataRef pausas agora
        let respTrab := respPar.1
        let respPaus := respPar.2
        let pctResp := if limResp > 0 then round1 (respTrab / limResp * 100) else 0
        let respVenc :=
          match chamado.data_primeira_resposta with
          | some _ => decide (respTrab > limResp)
          | none => decide (respTrab ≥ limResp) && !ehFinal
        let respRisco :=
          match chamado.data_primeira_resposta with
          | some _ => false
          | none => decide (pctResp ≥ pctRisco) && !respVenc && !ehFinal
        some {
          chamado_id := chamado.id
          codigo := chamado.codigo
          prioridade := chamado.prioridade
          status := status
          pausado := pausado
          ativo := STATUS_ATIVOS.contains status
          resolucao_trabalhado_horas := resTrab
          resolucao_pausado_horas := resPaus
          resolucao_limite_horas := limRes
          percentual_resolucao := pctRes
          resolucao_em_dia := !resVenc && !resRisco
          resolucao_em_risco := resRisco
          resolucao_vencida := resVenc
          resposta_trabalhado_horas := respTrab
          resposta_pausado_horas := respPaus
          resposta_limite_horas := limResp
          percentual_resposta := pctResp
          resposta_em_dia := !respVenc && !respRisco
          resposta_em_risco := respRisco
          resposta_vencida := respVenc }

/-- The population filter of `obter_metricas_dashboard`: opened on or after
the cutover epoch, not soft-deleted, and either in an active/paused status
(always included) or in a final status with the open date inside the
requested period. -/
def incluiDashboard (dataInicio dataFim : Int) (c : Chamado) : Bool :=
  match c.data_abertura with
  | none => false
  | some ab =>
    decide (ab ≥ SLA_DATA_INICIO) && c.deletado_em.isNone &&
      (match c.status with
       | none => false
       | some st =>
         (STATUS_ATIVOS ++ STATUS_PAUSADOS).contains st ||
           (STATUS_FINAIS.contains st && decide (ab ≥ dataInicio) &&
             decide (ab ≤ dataFim)))

/-- The `pausados` list of the dashboard loop: the `if s["pausado"]` arm. -/
def listaPausados (rs : List ResultadoSLA) : List ResultadoSLA :=
  rs.filter fun s => s.pausado

/-- The `vencidos` list of the dashboard loop: the
`elif s["resolucao_vencida"]` arm, reached only when the ticket is not
paused. -/
def listaVencidos (rs : List ResultadoSLA) : List ResultadoSLA :=
  rs.filter fun s => !s.pausado && s.resolucao_vencida

/-- The `em_risco` list of the dashboard loop: the
`elif s["resolucao_em_risco"]` arm, reached only when the ticket is neither
paused nor breached. -/
def listaEmRisco (rs : List ResultadoSLA) : List ResultadoSLA :=
  rs.filter fun s => !s.pausado && !s.resolucao_vencida && s.resolucao_em_risco

/-- `em_dia = total - len(em_risco) - len(vencidos)`: the derived on-time
count used for the compliance percentage. -/
def contagemEmDia (rs : List ResultadoSLA) : Int :=
  (rs.length : Int) - (listaEmRisco rs).length - (listaVencidos rs).length

/-- Per-priority `pausados` counter: `if s["pausado"]` (independent `if`). -/
def contaPausados (rs : List ResultadoSLA) : Nat :=
  rs.countP fun s => s.pausado

/-- Per-priority `em_risco` counter: `if s["resolucao_em_risco"]`
(independent `if`, not an `elif`). -/
def contaEmRisco (rs : List ResultadoSLA) : Nat :=
  rs.countP fun s => s.resolucao_em_risco

/-- Per-priority `vencidos` counter: `if s["resolucao_vencida"]`
(independent `if`, not an `elif`). -/
def contaVencidos (rs : List ResultadoSLA) : Nat :=
  rs.countP fun s => s.resolucao_vencida

end Metricas

namespace TIMetricas

/-! Embedding of `backend/ti/services/metrics.py`, whose `_horas_uteis` is the
same algorithm as the one in `modules/sla/metrics.py` but rounds its result to
2 decimal places instead of 4. -/

/-- `_horas_uteis(inicio, fim)` of `ti/services/metrics.py`. -/
def horasUteis (inicio fim : Int) : ℚ :=
  let i := if inicio < Metricas.SLA_DATA_INICIO then Metricas.SLA_DATA_INICIO else inicio
  if i ≥ fim then 0
  else round2 (Metricas.somaDias ((fim / 1440 - i / 1440).toNat + 1) (i / 1440) i fim)

end TIMetricas

namespace Calculadora

/-! Embedding of `backend/modules/sla/calculator.py` (`CalculadorSLA`).  The
database session becomes explicit parameters: `feriados` is the list of active
holiday dates (as day numbers), `horarios` the list of active
`HorarioComercial` rows `(dia_semana, hora_inicio, hora_fim)` with times in
minutes of the day (the dictionary built by `_carregar_horarios_comerciais`
is keyed by weekday, so one row per weekday is assumed and lookup takes the
first match). -/

def STATUS_PAUSA : List String := ["Aguardando", "Em análise"]

def STATUS_CONTA : List String := ["Aberto", "Em atendimento"]

def STATUS_FINAL : List String := ["Concluído", "Expirado"]

/-- `CalculadorSLA.eh_dia_util(data)`: weekday and not an active holiday. -/
def ehDiaUtil (feriados : List Int) (d : Int) : Bool :=
  if d % 7 ≥ 5 then false else !(feriados.contains d)

/-- Lookup of the weekday dictionary built by
`_carregar_horarios_comerciais`. -/
def lookupHorario : List (Int × Int × Int) → Int → Option (Int × Int)
  | [], _ => none
  | (dia, hIni, hFim) :: resto, diaSemana =>
    if dia = diaSemana then some (hIni, hFim) else lookupHorario resto diaSemana

/-- `_carregar_horarios_comerciais`: the configured rows, or the Monday-Friday
08:00-18:00 default when no row is configured at all. -/
def carregarHorarios (horarios : List (Int × Int × Int)) : List (Int × Int × Int) :=
  if horarios.isEmpty then
    [(0, 480, 1080), (1, 480, 1080), (2, 480, 1080), (3, 480, 1080), (4, 480, 1080)]
  else horarios

/-- `CalculadorSLA.obter_horario_comercial(data)`: `none` on non-business
days, otherwise the window for the weekday with the 08:00-18:00 fallback of
`horarios.get(dia_semana, (time(8, 0), time(18, 0)))`. -/
def obterHorarioComercial (horarios : List (Int × Int × Int)) (feriados : List Int)
    (d : Int) : Option (Int × Int) :=
  if !ehDiaUtil feriados d then none
  else some ((lookupHorario (carregarHorarios horarios) (d % 7)).getD (480, 1080))

/-- One iteration of the day loop of `calcular_horas_uteis`: clip the day's
business window by the span's start time on its first date and by its end
time on its last date. -/
def contribDia (horarios : List (Int × Int × Int)) (feriados : List Int)
    (d inicio fim : Int) : ℚ :=
  match obterHorarioComercial horarios feriados d with
  | none => 0
  | some (hIni, hFim) =>
    let tIni := if d = inicio / 1440 then max (inicio % 1440) hIni else hIni
    let tFim := if d = fim / 1440 then min (fim % 1440) hFim else hFim
    if tIni < tFim then ((tFim - tIni : Int) : ℚ) / 60 else 0

/-- The `while current_date <= data_fim.date()` loop of
`calcular_horas_uteis`, run for `n` days starting at date `d`. -/
def somaDias (horarios : List (Int × Int × Int)) (feriados : List Int) :
    Nat → Int → Int → Int → ℚ
  | 0, _, _, _ => 0
  | n + 1, d, inicio, fim =>
    contribDia horarios feriados d inicio fim +
      somaDias horarios feriados n (d + 1) inicio fim

/-- `CalculadorSLA.calcular_horas_uteis(data_inicio, data_fim)`.  Unlike the
accumulator of `metrics.py` it neither clamps the start to the cutover epoch
nor rounds the returned total. -/
def calcularHorasUteis (horarios : List (Int × Int × Int)) (feriados : List Int)
    (inicio fim : Int) : ℚ :=
  if inicio ≥ fim then 0
  else somaDias horarios feriados ((fim / 1440 - inicio / 1440).toNat + 1)
    (inicio / 1440) inicio fim

/-- A `PausaSLA` row (`inicio`/`fim` in minutes from the epoch, `fim = none`
for a still-open pause, `duracao_horas` in wall-clock hours). -/
structure PausaSLA where
  chamado_id : Nat
  inicio : Int
  fim : Option Int
  duracao_horas : ℚ
  tipo : String
  status_pausante : Option String
  motivo : String

/-- The query for an open pause of a ticket:
`PausaSLA.chamado_id == chamado_id AND PausaSLA.fim IS NULL ... .first()`. -/
def pausaAtiva (st : List PausaSLA) (cid : Nat) : Option PausaSLA :=
  st.find? fun p => p.chamado_id = cid && p.fim.isNone

/-- `CalculadorSLA.pausar_automaticamente(chamado_id, status_atual,
data_mudanca)` as a transformer of the pause table: no-op unless the status
is a pausing one; returns the existing open pause unchanged if there is one;
otherwise inserts a new open automatic pause. -/
def pausarAutomaticamente (st : List PausaSLA) (cid : Nat) (statusAtual : String)
    (dataMudanca : Int) : List PausaSLA × Option PausaSLA :=
  if !STATUS_PAUSA.contains statusAtual then (st, none)
  else
    match pausaAtiva st cid with
    | some p => (st, some p)
    | none =>
      let p : PausaSLA :=
        { chamado_id := cid, inicio := dataMudanca, fim := none, duracao_horas := 0,
          tipo := "status", status_pausante := some statusAtual,
          motivo := "Pausa automática" }
      (st ++ [p], some p)

/-- Closing of the open pause found by the `.first()` query of
`retomar_automaticamente`: set `fim` and the wall-clock
`duracao_horas = (data_mudanca - inicio)/3600` (minutes/60 here). -/
def fecharPrimeira : List PausaSLA → Nat → Int → List PausaSLA
  | [], _, _ => []
  | p :: resto, cid, t =>
    if p.chamado_id = cid && p.fim.isNone then
      { p with fim := some t, duracao_horas := ((t - p.inicio : Int) : ℚ) / 60 } :: resto
    else p :: fecharPrimeira resto cid t

/-- `CalculadorSLA.retomar_automaticamente(chamado_id, status_atual,
data_mudanca)`: no-op while the status still pauses or when no pause is open;
otherwise closes the open pause. -/
def retomarAutomaticamente (st : List PausaSLA) (cid : Nat) (statusAtual : String)
    (dataMudanca : Int) : List PausaSLA × Bool :=
  if STATUS_PAUSA.contains statusAtual then (st, false)
  else
    match pausaAtiva st cid with
    | none => (st, false)
    | some _ => (fecharPrimeira st cid dataMudanca, true)

/-- `CalculadorSLA.calcular_tempo_pausado(chamado_id)`: sum of
`duracao_horas` over the closed pauses of the ticket (the source's
`if p.duracao_horas` guard only skips zero terms, which does not change the
sum). -/
def calcularTempoPausado (st : List PausaSLA) (cid : Nat) : ℚ :=
  ((st.filter fun p => p.chamado_id = cid && p.fim.isSome).map
    (fun p => p.duracao_horas)).sum

/-- `ConfiguracaoSLA` row fields read by the calculator. -/
structure ConfiguracaoSLA where
  tempo_resposta_horas : ℚ
  tempo_resolucao_horas : ℚ
  percentual_risco : ℚ

/-- The `Chamado` fields read by `CalculadorSLA.calcular_sla` (the calculator
presupposes a non-null open timestamp). -/
structure Chamado where
  id : Nat
  prioridade : String
  status : String
  data_abertura : Int
  data_primeira_resposta : Option Int
  data_conclusao : Option Int
  cancelado_em : Option Int

/-- The dictionary returned by `CalculadorSLA.calcular_sla`. -/
structure ResultadoSLA where
  tempo_resposta_limite_horas : ℚ
  tempo_resposta_decorrido_horas : ℚ
  tempo_resposta_pausado_horas : ℚ
  percentual_resposta : ℚ
  resposta_em_risco : Bool
  resposta_vencida : Bool
  resposta_em_dia : Bool
  tempo_resolucao_limite_horas : ℚ
  tempo_resolucao_decorrido_horas : ℚ
  tempo_resolucao_pausado_horas : ℚ
  percentual_resolucao : ℚ
  resolucao_em_risco : Bool
  resolucao_vencida : Bool
  resolucao_em_dia : Bool
  pausado : Bool
  ativo : Bool

/-- `CalculadorSLA._criar_resultado_vazio()`: the zeroed degraded result
returned when no configuration matches the ticket's priority. -/
def criarResultadoVazio : ResultadoSLA :=
  { tempo_resposta_limite_horas := 0
    tempo_resposta_decorrido_horas := 0
    tempo_resposta_pausado_horas := 0
    percentual_resposta := 0
    resposta_em_risco := false
    resposta_vencida := false
    resposta_em_dia := true
    tempo_resolucao_limite_horas := 0
    tempo_resolucao_decorrido_horas := 0
    tempo_resolucao_pausado_horas := 0
    percentual_resolucao := 0
    resolucao_em_risco := false
    resolucao_vencida := false
    resolucao_em_dia := true
    pausado := false
    ativo := false }

/-- `CalculadorSLA.calcular_sla(chamado)`.  `config` is the result of
`obter_configuracao_sla(chamado.prioridade)`, `st` the pause table, `agora`
is `datetime.utcnow()`. -/
def calcularSla (config : Option ConfiguracaoSLA)
    (horarios : List (Int × Int × Int)) (feriados : List Int)
    (st : List PausaSLA) (agora : Int) (chamado : Chamado) : ResultadoSLA :=
  match config with
  | none => criarResultadoVazio
  | some cfg =>
    let dataRef :=
      if STATUS_FINAL.contains chamado.status then
        (match chamado.data_conclusao with
         | some t => some t
         | none => chamado.cancelado_em).getD agora
      else agora
    let tempoPausado := calcularTempoPausado st chamado.id
    let respDecorrido :=
      match chamado.data_primeira_resposta with
      | some _ => (0 : ℚ)
      | none => calcularHorasUteis horarios feriados chamado.data_abertura dataRef
    let respPausado :=
      match chamado.data_primeira_resposta with
      | some _ => (0 : ℚ)
      | none => tempoPausado
    let respEfetivo := max 0 (respDecorrido - respPausado)
    let pctResp :=
      match chamado.data_primeira_resposta with
      | some _ => (0 : ℚ)
      | none =>
        if cfg.tempo_resposta_horas > 0 then
          respEfetivo / cfg.tempo_resposta_horas * 100
        else 0
    let respVenc :=
      match chamado.data_primeira_resposta with
      | some _ => false
      | none => decide (respEfetivo ≥ cfg.tempo_resposta_horas)
    let respRisco :=
      match chamado.data_primeira_resposta with
      | some _ => false
      | none => decide (pctResp ≥ cfg.percentual_risco) && !respVenc
    let resDecorrido := calcularHorasUteis horarios feriados chamado.data_abertura dataRef
    let resEfetivo := max 0 (resDecorrido - tempoPausado)
    let pctRes :=
      if cfg.tempo_resolucao_horas > 0 then
        resEfetivo / cfg.tempo_resolucao_horas * 100
      else 0
    let ehFinal := STATUS_FINAL.contains chamado.status
    let resVenc := !ehFinal && decide (resEfetivo ≥ cfg.tempo_resolucao_horas)
    let resRisco := !ehFinal && (decide (pctRes ≥ cfg.percentual_risco) && !resVenc)
    { tempo_resposta_limite_horas := cfg.tempo_resposta_horas
      tempo_resposta_decorrido_horas := round2 respDecorrido
      tempo_resposta_pausado_horas := round2 respPausado
      percentual_resposta := round2 pctResp
      resposta_em_risco := respRisco
      resposta_vencida := respVenc
      resposta_em_dia := !respVenc && !respRisco
      tempo_resolucao_limite_horas := cfg.tempo_resolucao_horas
      tempo_resolucao_decorrido_horas := round2 resDecorrido
      tempo_resolucao_pausado_horas := round2 tempoPausado
      percentual_resolucao := round2 pctRes
      resolucao_em_risco := resRisco
      resolucao_vencida := resVenc
      resolucao_em_dia := !resVenc && !resRisco
      pausado := STATUS_PAUSA.contains chamado.status
      ativo := STATUS_CONTA.contains chamado.status }

end Calculadora

namespace Servico

/-! Embedding of `SlaService.pausar_sla_chamado` from
`backend/modules/sla/service.py`, the live entry point that the status-change
API calls for pause/resume bookkeeping. -/

/-- Closing of every open pause of the ticket, the `else` branch of
`pausar_sla_chamado`. -/
def fecharTodas : List Calculadora.PausaSLA → Nat → Int → List Calculadora.PausaSLA
  | [], _, _ => []
  | p :: resto, cid, t =>
    (if p.chamado_id = cid && p.fim.isNone then
      { p with fim := some t, duracao_horas := ((t - p.inicio : Int) : ℚ) / 60 }
    else p) :: fecharTodas resto cid t

/-- `SlaService.pausar_sla_chamado(chamado_id, status)`: on a pausing status,
insert an open pause unless one already exists; on any other status, close
every open pause of the ticket.  Returns whether anything changed. -/
def pausarSlaChamado (st : List Calculadora.PausaSLA) (cid : Nat) (status : String)
    (agora : Int) : List Calculadora.PausaSLA × Bool :=
  if ["Aguardando"].contains status then
    match Calculadora.pausaAtiva st cid with
    | some _ => (st, false)
    | none =>
      let p : Calculadora.PausaSLA :=
        { chamado_id := cid, inicio := agora, fim := none, duracao_horas := 0,
          tipo := "status", status_pausante := some status,
          motivo := "Pausa automática" }
      (st ++ [p], true)
  else
    let abertas := st.any fun p => p.chamado_id = cid && p.fim.isNone
    (fecharTodas st cid agora, abertas)

/-- The pause/resume operations the surrounding application can run against
the pause table of one ticket. -/
inductive OpPausa where
  | pausarAuto (status : String) (t : Int)
  | retomarAuto (status : String) (t : Int)
  | servico (status : String) (t : Int)

/-- Application of one operation to the pause table. -/
def aplicarOp (cid : Nat) (st : List Calculadora.PausaSLA) : OpPausa → List Calculadora.PausaSLA
  | .pausarAuto s t => (Calculadora.pausarAutomaticamente st cid s t).1
  | .retomarAuto s t => (Calculadora.retomarAutomaticamente st cid s t).1
  | .servico s t => (pausarSlaChamado st cid s t).1

/-- Number of open (`fim = none`) pause rows of a ticket. -/
def contagemAbertas (st : List Calculadora.PausaSLA) (cid : Nat) : Nat :=
  st.countP fun p => p.chamado_id = cid && p.fim.isNone

end Servico

/-! ## Helper lemmas -/

/-- A rational that is a whole number of ten-thousandths, the form of every
value `round(x, 4)` returns. -/
def DezMilesimos (q : ℚ) : Prop := ∃ m : ℤ, q = (m : ℚ) / 10000

theorem dezMilesimos_round4 (q : ℚ) : DezMilesimos (round4 q) :=
  ⟨round (q * 10000), rfl⟩

theorem dezMilesimos_zero : DezMilesimos 0 :=
  ⟨0, by norm_num⟩

theorem dezMilesimos_add {a b : ℚ} (ha : DezMilesimos a) (hb : DezMilesimos b) :
    DezMilesimos (a + b) := by
  obtain ⟨m, rfl⟩ := ha
  obtain ⟨n, rfl⟩ := hb
  exact ⟨m + n, by push_cast; ring⟩

theorem dezMilesimos_sub {a b : ℚ} (ha : DezMilesimos a) (hb : DezMilesimos b) :
    DezMilesimos (a - b) := by
  obtain ⟨m, rfl⟩ := ha
  obtain ⟨n, rfl⟩ := hb
  exact ⟨m - n, by push_cast; ring⟩

/-- Rounding to 4 decimal places fixes a value that already is a whole number
of ten-thousandths. -/
theorem round4_fix {q : ℚ} (h : DezMilesimos q) : round4 q = q := by
  obtain ⟨m, rfl⟩ := h
  unfold round4
  have h10 : ((m : ℚ) / 10000) * 10000 = (m : ℚ) := by norm_num
  rw [h10, round_intCast]

theorem horasUteis_dezMilesimos (inicio fim : Int) :
    DezMilesimos (Metricas.horasUteis inicio fim) := by
  simp only [Metricas.horasUteis]
  split <;> split
  all_goals first
  | exact dezMilesimos_zero
  | exact dezMilesimos_round4 _

theorem pausadoTotal_dezMilesimos (inicio fim agora : Int)
    (pausas : List (Int × Option Int)) :
    DezMilesimos (Metricas.pausadoTotal inicio fim agora pausas) := by
  induction pausas with
  | nil => exact dezMilesimos_zero
  | cons p resto ih =>
    obtain ⟨pIni, pFim⟩ := p
    simp only [Metricas.pausadoTotal]
    refine dezMilesimos_add ?_ ih
    split
    · exact horasUteis_dezMilesimos _ _
    · exact dezMilesimos_zero

theorem bool_not_true_eq_false {b : Bool} (h : (!b) = true) : b = false := by
  cases b
  · rfl
  · simp at h

/-! ## Claims -/

/-- C1 (amended): for the metrics accumulator, whenever the total paused
business hours charged for the pause intersections do not exceed the gross
business hours of the span — as is the case for non-overlapping pauses, where
the floor at 0 never engages — the returned pair satisfies
`worked + paused = business_hours_between(open, end)` exactly.  (As literally
stated, over arbitrary combinations of closed pause intervals, the claim is
false: overlapping pauses are each charged in full, see the
counterexample.) -/
theorem C1_contabilidade_pausas (inicio fim agora : Int)
    (pausas : List (Int × Option Int))
    (h : Metricas.pausadoTotal inicio fim agora pausas ≤ Metricas.horasUteis inicio fim) :
    (Metricas.horasUteisComPausas inicio fim pausas agora).1 +
      (Metricas.horasUteisComPausas inicio fim pausas agora).2 =
      Metricas.horasUteis inicio fim := by
  have hb := horasUteis_dezMilesimos inicio fim
  have hp := pausadoTotal_dezMilesimos inicio fim agora pausas
  simp only [Metricas.horasUteisComPausas]
  rw [max_eq_right (by linarith), round4_fix (dezMilesimos_sub hb hp), round4_fix hp]
  ring

theorem C1_contabilidade_pausas_witness :
    Metricas.pausadoTotal 480 600 1440 [(500, some 530)] ≤
        Metricas.horasUteis 480 600 ∧
      (Metricas.horasUteisComPausas 480 600 [(500, some 530)] 1440).1 +
        (Metricas.horasUteisComPausas 480 600 [(500, some 530)] 1440).2 =
        Metricas.horasUteis 480 600 :=
  ⟨by norm_num [Metricas.pausadoTotal, Metricas.horasUteis, Metricas.somaDias,
      Metricas.contribDia, Metricas.ehDiaUtil, Metricas.SLA_DATA_INICIO,
      Metricas.HORA_INICIO, Metricas.HORA_FIM, round4, round_eq],
    C1_contabilidade_pausas 480 600 1440 [(500, some 530)]
      (by norm_num [Metricas.pausadoTotal, Metricas.horasUteis, Metricas.somaDias,
        Metricas.contribDia, Metricas.ehDiaUtil, Metricas.SLA_DATA_INICIO,
        Metricas.HORA_INICIO, Metricas.HORA_FIM, round4, round_eq])⟩

/-- C1 counterexample: two identical closed pauses covering a two-hour span.
Each intersection is charged in full, so `worked + paused = 0 + 4 = 4` while
`business_hours_between = 2` — off by two full hours, far beyond any rounding
tolerance. -/
theorem C1_contabilidade_pausas_cex :
    (Metricas.horasUteisComPausas 480 600 [(480, some 600), (480, some 600)] 0).1 +
        (Metricas.horasUteisComPausas 480 600 [(480, some 600), (480, some 600)] 0).2 = 4 ∧
      Metricas.horasUteis 480 600 = 2 := by
  constructor <;>
    norm_num [Metricas.horasUteisComPausas, Metricas.pausadoTotal, Metricas.horasUteis,
      Metricas.somaDias, Metricas.contribDia, Metricas.ehDiaUtil,
      Metricas.SLA_DATA_INICIO, Metricas.HORA_INICIO, Metricas.HORA_FIM,
      round4, round_eq]

/-- C10: both copies of `_horas_uteis` clamp the start instant to the SLA
cutover epoch before iterating, so for any start strictly before the epoch
the result coincides with the one computed from the epoch itself; business
time before 2026-02-16 00:00 is silently discarded inside the accumulator. -/
theorem C10_clampe_epoca (inicio fim : Int) (h : inicio < Metricas.SLA_DATA_INICIO) :
    Metricas.horasUteis inicio fim =
        Metricas.horasUteis Metricas.SLA_DATA_INICIO fim ∧
      TIMetricas.horasUteis inicio fim =
        TIMetricas.horasUteis Metricas.SLA_DATA_INICIO fim := by
  constructor <;>
  · simp only [Metricas.horasUteis, TIMetricas.horasUteis]
    rw [if_pos h, if_neg (lt_irrefl _)]

/-- C3 (amended): for every evaluated ticket and each clock, exactly one of
on-time / at-risk / breached holds; breached implies worked hours at or above
the configured limit; at-risk implies rounded percent at or above the risk
threshold and not breached; a Final-status ticket is never marked
resolution-breached, resolution-at-risk or response-at-risk, and (while
unanswered) not response-breached either.  (As literally stated the claim is
false: once a first response is recorded, the frozen response clock sets
`resposta_vencida = worked > limit` with no Final-status guard, so a
Concluído ticket whose first response came late stays response-breached —
see the counterexample.) -/
theorem C3_classificacao_clocks (configs : String → Option Metricas.ConfigSLA)
    (pausas : List (Int × Option Int)) (agora : Int) (c : Metricas.Chamado)
    (cfg : Metricas.ConfigSLA) (r : Metricas.ResultadoSLA)
    (hcfg : Metricas.configLookup configs c = some cfg)
    (hr : Metricas.calcularSlaChamado configs pausas agora c = some r) :
    (r.resolucao_em_dia = (!r.resolucao_vencida && !r.resolucao_em_risco)) ∧
    ¬(r.resolucao_em_risco = true ∧ r.resolucao_vencida = true) ∧
    (r.resposta_em_dia = (!r.resposta_vencida && !r.resposta_em_risco)) ∧
    ¬(r.resposta_em_risco = true ∧ r.resposta_vencida = true) ∧
    (r.resolucao_vencida = true → r.resolucao_limite_horas ≤ r.resolucao_trabalhado_horas) ∧
    (r.resposta_vencida = true → r.resposta_limite_horas ≤ r.resposta_trabalhado_horas) ∧
    (r.resolucao_em_risco = true → cfg.risco ≤ r.percentual_resolucao ∧ r.resolucao_vencida = false) ∧
    (r.resposta_em_risco = true → cfg.risco ≤ r.percentual_resposta ∧ r.resposta_vencida = false) ∧
    (Metricas.STATUS_FINAIS.contains (c.status.getD "Aberto") = true →
      r.resolucao_vencida = false ∧ r.resolucao_em_risco = false ∧
      r.resposta_em_risco = false ∧
      (c.data_primeira_resposta = none → r.resposta_vencida = false)) := by
  cases habr : c.data_abertura with
  | none => simp [Metricas.calcularSlaChamado, habr] at hr
  | some abertura =>
    by_cases hab : abertura < Metricas.SLA_DATA_INICIO
    · simp [Metricas.calcularSlaChamado, habr, if_pos hab] at hr
    · cases hdpr : c.data_primeira_resposta with
      | some dpr =>
        simp only [Metricas.calcularSlaChamado, habr, if_neg hab, hcfg, hdpr,
          Option.some.injEq] at hr
        subst hr
        dsimp only
        refine ⟨rfl, ?_, rfl, ?_, ?_, ?_, ?_, ?_, ?_⟩
        · rintro ⟨h1, h2⟩
          simp only [h2] at h1
          simp at h1
        · rintro ⟨h1, h2⟩
          simp at h1
        · intro h1
          simp only [Bool.and_eq_true, decide_eq_true_eq] at h1
          exact h1.1
        · intro h1
          simp only [decide_eq_true_eq] at h1
          exact le_of_lt h1
        · intro h1
          simp only [Bool.and_eq_true, decide_eq_true_eq] at h1
          have hvf := bool_not_true_eq_false h1.1.2
          exact ⟨h1.1.1, hvf⟩
        · intro h1
          simp at h1
        · intro hF
          refine ⟨by simp only [hF, Bool.not_true, Bool.and_false],
            by simp only [hF, Bool.not_true, Bool.and_false], rfl, ?_⟩
          intro h2
          simp [hdpr] at h2
      | none =>
        simp only [Metricas.calcularSlaChamado, habr, if_neg hab, hcfg, hdpr,
          Option.some.injEq] at hr
        subst hr
        dsimp only
        refine ⟨rfl, ?_, rfl, ?_, ?_, ?_, ?_, ?_, ?_⟩
        · rintro ⟨h1, h2⟩
          simp only [h2] at h1
          simp at h1
        · rintro ⟨h1, h2⟩
          simp only [h2] at h1
          simp at h1
        · intro h1
          simp only [Bool.and_eq_true, decide_eq_true_eq] at h1
          exact h1.1
        · intro h1
          simp only [Bool.and_eq_true, decide_eq_true_eq] at h1
          exact h1.1
        · intro h1
          simp only [Bool.and_eq_true, decide_eq_true_eq] at h1
          have hvf := bool_not_true_eq_false h1.1.2
          exact ⟨h1.1.1, hvf⟩
        · intro h1
          simp only [Bool.and_eq_true, decide_eq_true_eq] at h1
          have hvf := bool_not_true_eq_false h1.1.2
          exact ⟨h1.1.1, hvf⟩
        · intro hF
          exact ⟨by simp only [hF, Bool.not_true, Bool.and_false],
            by simp only [hF, Bool.not_true, Bool.and_false],
            by simp only [hF, Bool.not_true, Bool.and_false],
            fun _ => by simp only [hF, Bool.not_true, Bool.and_false]⟩

/-- Constant configuration table used by the C3 counterexample. -/
def configsC3 : String → Option Metricas.ConfigSLA :=
  fun _ => some { resposta := 1, resolucao := 8, risco := 80 }

/-- Concluído ticket whose first response (at 660, three business hours after
opening at 480) exceeded the 1-hour response limit. -/
def chamadoC3 : Metricas.Chamado :=
  { id := 2, codigo := "CH-2", prioridade := some "Alta", status := some "Concluído",
    data_abertura := some 480, data_primeira_resposta := some 660,
    data_conclusao := some 700, cancelado_em := none, deletado_em := none }

/-- C3 counterexample: a ticket in the Final status Concluído is marked
`resposta_vencida = true` by the evaluator, contradicting the claim that a
Final ticket is never marked breached. -/
theorem C3_classificacao_clocks_cex :
    Metricas.STATUS_FINAIS.contains (chamadoC3.status.getD "Aberto") = true ∧
      (Metricas.calcularSlaChamado configsC3 [] 800 chamadoC3).map
        (fun r => r.resposta_vencida) = some true := by
  constructor
  · simp [chamadoC3, Metricas.STATUS_FINAIS]
  · norm_num [Metricas.calcularSlaChamado, Metricas.configLookup, configsC3, chamadoC3,
      Metricas.horasUteisComPausas, Metricas.pausadoTotal, Metricas.horasUteis,
      Metricas.somaDias, Metricas.contribDia, Metricas.ehDiaUtil,
      Metricas.SLA_DATA_INICIO, Metricas.HORA_INICIO, Metricas.HORA_FIM,
      Metricas.STATUS_FINAIS, Metricas.STATUS_PAUSADOS, Metricas.STATUS_ATIVOS,
      round4, round1, round_eq]

/-- Configuration used by the C3 witness. -/
def cfgC3w : Metricas.ConfigSLA := { resposta := 2, resolucao := 8, risco := 80 }

def configsC3w : String → Option Metricas.ConfigSLA := fun _ => some cfgC3w

/-- Open ticket, two business hours old, unanswered, used by the C3 witness. -/
def chamadoC3w : Metricas.Chamado :=
  { id := 3, codigo := "CH-3", prioridade := some "Normal", status := some "Aberto",
    data_abertura := some 480, data_primeira_resposta := none,
    data_conclusao := none, cancelado_em := none, deletado_em := none }

/-- The evaluation of `chamadoC3w` under `cfgC3w` at instant 600. -/
def resultadoC3w : Metricas.ResultadoSLA :=
  { chamado_id := 3, codigo := "CH-3", prioridade := some "Normal", status := "Aberto",
    pausado := false, ativo := true,
    resolucao_trabalhado_horas := 2, resolucao_pausado_horas := 0,
    resolucao_limite_horas := 8, percentual_resolucao := 25,
    resolucao_em_dia := true, resolucao_em_risco := false, resolucao_vencida := false,
    resposta_trabalhado_horas := 2, resposta_pausado_horas := 0,
    resposta_limite_horas := 2, percentual_resposta := 100,
    resposta_em_dia := false, resposta_em_risco := false, resposta_vencida := true }

theorem calc_chamadoC3w :
    Metricas.calcularSlaChamado configsC3w [] 600 chamadoC3w = some resultadoC3w := by
  norm_num [Metricas.calcularSlaChamado, Metricas.configLookup, configsC3w, chamadoC3w,
    cfgC3w, resultadoC3w,
    Metricas.horasUteisComPausas, Metricas.pausadoTotal, Metricas.horasUteis,
    Metricas.somaDias, Metricas.contribDia, Metricas.ehDiaUtil,
    Metricas.SLA_DATA_INICIO, Metricas.HORA_INICIO, Metricas.HORA_FIM,
    Metricas.STATUS_FINAIS, Metricas.STATUS_PAUSADOS, Metricas.STATUS_ATIVOS,
    round4, round1, round_eq, Metricas.ResultadoSLA.mk.injEq]
  decide

theorem C3_classificacao_clocks_witness :
    (Metricas.configLookup configsC3w chamadoC3w = some cfgC3w ∧
        Metricas.calcularSlaChamado configsC3w [] 600 chamadoC3w = some resultadoC3w) ∧
      ((resultadoC3w.resolucao_em_dia =
          (!resultadoC3w.resolucao_vencida && !resultadoC3w.resolucao_em_risco)) ∧
      ¬(resultadoC3w.resolucao_em_risco = true ∧ resultadoC3w.resolucao_vencida = true) ∧
      (resultadoC3w.resposta_em_dia =
          (!resultadoC3w.resposta_vencida && !resultadoC3w.resposta_em_risco)) ∧
      ¬(resultadoC3w.resposta_em_risco = true ∧ resultadoC3w.resposta_vencida = true) ∧
      (resultadoC3w.resolucao_vencida = true →
        resultadoC3w.resolucao_limite_horas ≤ resultadoC3w.resolucao_trabalhado_horas) ∧
      (resultadoC3w.resposta_vencida = true →
        resultadoC3w.resposta_limite_horas ≤ resultadoC3w.resposta_trabalhado_horas) ∧
      (resultadoC3w.resolucao_em_risco = true →
        cfgC3w.risco ≤ resultadoC3w.percentual_resolucao ∧
          resultadoC3w.resolucao_vencida = false) ∧
      (resultadoC3w.resposta_em_risco = true →
        cfgC3w.risco ≤ resultadoC3w.percentual_resposta ∧
          resultadoC3w.resposta_vencida = false) ∧
      (Metricas.STATUS_FINAIS.contains (chamadoC3w.status.getD "Aberto") = true →
        resultadoC3w.resolucao_vencida = false ∧ resultadoC3w.resolucao_em_risco = false ∧
        resultadoC3w.resposta_em_risco = false ∧
        (chamadoC3w.data_primeira_resposta = none →
          resultadoC3w.resposta_vencida = false))) :=
  ⟨⟨rfl, calc_chamadoC3w⟩,
    C3_classificacao_clocks configsC3w [] 600 chamadoC3w cfgC3w resultadoC3w rfl
      calc_chamadoC3w⟩

/-- C2: a ticket opened strictly before the SLA cutover epoch is evaluated to
`none` by `calcular_sla_chamado`, and the dashboard population filter of
`obter_metricas_dashboard` excludes it outright (its first conjunct is
`data_abertura >= SLA_DATA_INICIO`), so it never contributes to any
aggregated count. -/
theorem C2_exclusao_corte (configs : String → Option Metricas.ConfigSLA)
    (pausas : List (Int × Option Int)) (agora : Int) (c : Metricas.Chamado)
    (dataInicio dataFim t : Int)
    (ht : c.data_abertura = some t) (h : t < Metricas.SLA_DATA_INICIO) :
    Metricas.calcularSlaChamado configs pausas agora c = none ∧
      Metricas.incluiDashboard dataInicio dataFim c = false := by
  constructor
  · simp only [Metricas.calcularSlaChamado, ht, if_pos h]
  · have h' : ¬(t ≥ Metricas.SLA_DATA_INICIO) := not_le.mpr h
    simp [Metricas.incluiDashboard, ht, h']

/-- Concrete pre-epoch ticket used to witness C2. -/
def chamadoC2 : Metricas.Chamado :=
  { id := 1, codigo := "CH-1", prioridade := some "Alta", status := some "Aberto",
    data_abertura := some (-10), data_primeira_resposta := none,
    data_conclusao := none, cancelado_em := none, deletado_em := none }

theorem C2_exclusao_corte_witness :
    (chamadoC2.data_abertura = some (-10) ∧
        (-10 : Int) < Metricas.SLA_DATA_INICIO) ∧
      (Metricas.calcularSlaChamado (fun _ => none) [] 0 chamadoC2 = none ∧
        Metricas.incluiDashboard 0 100 chamadoC2 = false) :=
  ⟨⟨rfl, by norm_num [Metricas.SLA_DATA_INICIO]⟩,
    C2_exclusao_corte (fun _ => none) [] 0 chamadoC2 0 100 (-10) rfl
      (by norm_num [Metricas.SLA_DATA_INICIO])⟩

theorem C10_clampe_epoca_witness :
    (-5 : Int) < Metricas.SLA_DATA_INICIO ∧
      (Metricas.horasUteis (-5) 600 = Metricas.horasUteis Metricas.SLA_DATA_INICIO 600 ∧
        TIMetricas.horasUteis (-5) 600 =
          TIMetricas.horasUteis Metricas.SLA_DATA_INICIO 600) :=
  ⟨by norm_num [Metricas.SLA_DATA_INICIO],
    C10_clampe_epoca (-5) 600 (by norm_num [Metricas.SLA_DATA_INICIO])⟩

/-- C4 (amended): for a span that starts and ends inside the business window
of one same business day, the calculator accumulator returns exactly
`(end - start)` in hours; the metrics accumulator, for spans starting at or
after the cutover epoch, returns the 4-decimal rounding of that quantity (it
rounds at the point of return), while for a span that ends at or before the
epoch it returns 0, because it clamps the start instant to the epoch before
iterating.  (As literally stated — exact equality for every single-day span —
the claim fails on the metrics accumulator twice over: by the 4-decimal
rounding, e.g. for a one-minute span, and by the epoch clamp, which zeroes
any pre-epoch business day; see the counterexample.) -/
theorem C4_identidade_dia_unico :
    (∀ (horarios : List (Int × Int × Int)) (feriados : List Int)
        (inicio fim hIni hFim : Int),
      inicio < fim → inicio / 1440 = fim / 1440 →
      Calculadora.obterHorarioComercial horarios feriados (inicio / 1440) = some (hIni, hFim) →
      hIni ≤ inicio % 1440 → fim % 1440 ≤ hFim →
      Calculadora.calcularHorasUteis horarios feriados inicio fim =
        ((fim - inicio : Int) : ℚ) / 60) ∧
    (∀ inicio fim : Int,
      0 ≤ inicio → inicio < fim → inicio / 1440 = fim / 1440 →
      Metricas.ehDiaUtil (inicio / 1440) = true →
      Metricas.HORA_INICIO ≤ inicio % 1440 → fim % 1440 ≤ Metricas.HORA_FIM →
      Metricas.horasUteis inicio fim = round4 (((fim - inicio : Int) : ℚ) / 60)) ∧
    (∀ inicio fim : Int, fim ≤ Metricas.SLA_DATA_INICIO →
      Metricas.horasUteis inicio fim = 0) := by
  refine ⟨?_, ?_, ?_⟩
  · intro horarios feriados inicio fim hIni hFim hlt hd hoc h1 h2
    have hnl : ¬(inicio ≥ fim) := not_le.mpr hlt
    have hmod : inicio % 1440 < fim % 1440 := by omega
    have hsub : fim % 1440 - inicio % 1440 = fim - inicio := by omega
    simp only [Calculadora.calcularHorasUteis, if_neg hnl, ← hd, sub_self,
      Int.toNat_zero, zero_add, Calculadora.somaDias, add_zero]
    simp only [Calculadora.contribDia, hoc, if_pos rfl, if_pos hd, if_true,
      max_eq_left h1, min_eq_left h2, if_pos hmod, hsub]
  · intro inicio fim h0 hlt hd hdu h1 h2
    have hcl : ¬(inicio < Metricas.SLA_DATA_INICIO) := by
      simp only [Metricas.SLA_DATA_INICIO]; omega
    have hnl : ¬(inicio ≥ fim) := not_le.mpr hlt
    have hjI : max (inicio / 1440 * 1440 + Metricas.HORA_INICIO) inicio = inicio := by
      simp only [Metricas.HORA_INICIO] at h1 ⊢; omega
    have hjF : min (inicio / 1440 * 1440 + Metricas.HORA_FIM) fim = fim := by
      simp only [Metricas.HORA_FIM] at h2 ⊢; omega
    simp only [Metricas.horasUteis, if_neg hcl, if_neg hnl, ← hd, sub_self,
      Int.toNat_zero, zero_add, Metricas.somaDias, add_zero]
    simp only [Metricas.contribDia, hdu, if_true, hjI, hjF, if_pos hlt]
  · intro inicio fim hf
    have hge : (if inicio < Metricas.SLA_DATA_INICIO then Metricas.SLA_DATA_INICIO
        else inicio) ≥ fim := by
      simp only [Metricas.SLA_DATA_INICIO] at hf ⊢
      split <;> omega
    simp only [Metricas.horasUteis, if_pos hge]

theorem contribDia_of_nao_util (horarios : List (Int × Int × Int)) (feriados : List Int)
    (d inicio fim : Int) (h : Calculadora.ehDiaUtil feriados d = false) :
    Calculadora.contribDia horarios feriados d inicio fim = 0 := by
  simp [Calculadora.contribDia, Calculadora.obterHorarioComercial, h]

theorem somaDias_zero_of_nao_util (horarios : List (Int × Int × Int)) (feriados : List Int)
    (n : Nat) (d inicio fim : Int)
    (h : ∀ k : Nat, k < n → Calculadora.ehDiaUtil feriados (d + k) = false) :
    Calculadora.somaDias horarios feriados n d inicio fim = 0 := by
  induction n generalizing d with
  | zero => rfl
  | succ n ih =>
    have h0 : Calculadora.ehDiaUtil feriados d = false := by
      have := h 0 (Nat.succ_pos n)
      simpa using this
    rw [Calculadora.somaDias, contribDia_of_nao_util horarios feriados d inicio fim h0,
      ih (d + 1) ?_, add_zero]
    intro k hk
    have := h (k + 1) (Nat.succ_lt_succ hk)
    have harg : d + 1 + (k : Int) = d + ((k : Nat) + 1 : Nat) := by push_cast; ring
    rw [harg]
    exact this

/-- C5 (amended): a Saturday or Sunday contributes zero business hours in
both accumulators, an active holiday date contributes zero even on a weekday
in the calculator's accumulator (whose `eh_dia_util` consults the holiday
table), and an interval whose days are all non-business days accumulates zero
in total.  The metrics accumulator, however, is holiday-blind: its
`_eh_dia_util` checks only `weekday < 5` and takes no holiday input, so every
weekday — active holiday or not — whose window lies inside the span
contributes its full business window there.  (As literally stated — every
active holiday date contributes 0 — the claim is false for the cited metrics
accumulator; see the counterexample.) -/
theorem C5_fds_feriados_zero :
    (∀ (horarios : List (Int × Int × Int)) (feriados : List Int) (d inicio fim : Int),
      5 ≤ d % 7 → Calculadora.contribDia horarios feriados d inicio fim = 0) ∧
    (∀ (horarios : List (Int × Int × Int)) (feriados : List Int) (d inicio fim : Int),
      feriados.contains d = true → Calculadora.contribDia horarios feriados d inicio fim = 0) ∧
    (∀ d inicio fim : Int, 5 ≤ d % 7 → Metricas.contribDia d inicio fim = 0) ∧
    (∀ (horarios : List (Int × Int × Int)) (feriados : List Int) (inicio fim : Int),
      (∀ d : Int, inicio / 1440 ≤ d → d ≤ fim / 1440 →
        Calculadora.ehDiaUtil feriados d = false) →
      Calculadora.calcularHorasUteis horarios feriados inicio fim = 0) ∧
    (∀ d inicio fim : Int, d % 7 < 5 →
      inicio ≤ d * 1440 + Metricas.HORA_INICIO →
      d * 1440 + Metricas.HORA_FIM ≤ fim →
      Metricas.contribDia d inicio fim = 10) := by
  refine ⟨?_, ?_, ?_, ?_, ?_⟩
  · intro horarios feriados d inicio fim h
    apply contribDia_of_nao_util
    simp [Calculadora.ehDiaUtil, h]
  · intro horarios feriados d inicio fim h
    have h' : d ∈ feriados := by simpa using h
    apply contribDia_of_nao_util
    simp [Calculadora.ehDiaUtil, h']
  · intro d inicio fim h
    have hn : ¬(d % 7 < 5) := not_lt.mpr h
    simp [Metricas.contribDia, Metricas.ehDiaUtil, hn]
  · intro horarios feriados inicio fim h
    by_cases hge : inicio ≥ fim
    · simp [Calculadora.calcularHorasUteis, if_pos hge]
    · have hlt : inicio < fim := lt_of_not_ge hge
      simp only [Calculadora.calcularHorasUteis, if_neg hge]
      apply somaDias_zero_of_nao_util
      intro k hk
      apply h
      · omega
      · have hdd : inicio / 1440 ≤ fim / 1440 := by
          apply Int.ediv_le_ediv (by norm_num) (le_of_lt hlt)
        omega
  · intro d inicio fim hw h1 h2
    have hdu : Metricas.ehDiaUtil d = true := by
      simp [Metricas.ehDiaUtil, hw]
    have hlt : d * 1440 + Metricas.HORA_INICIO < d * 1440 + Metricas.HORA_FIM := by
      simp only [Metricas.HORA_INICIO, Metricas.HORA_FIM]
      omega
    have hsub : d * 1440 + Metricas.HORA_FIM - (d * 1440 + Metricas.HORA_INICIO) = 600 := by
      simp only [Metricas.HORA_INICIO, Metricas.HORA_FIM]
      ring
    simp only [Metricas.contribDia, hdu, if_true, max_eq_left h1, min_eq_left h2,
      if_pos hlt, hsub]
    norm_num

/-- C5 counterexample: date 2 (Wednesday 2026-02-18) marked as an active
holiday.  The calculator's per-day contribution is 0 for it, but the metrics
accumulator — whose `_eh_dia_util` checks only the weekday and takes no
holiday input — charges the full 10-hour window for that date: both as the
per-day contribution inside a wider span and as `_horas_uteis` over exactly
that day's window, contradicting "each date present in the active holiday set
likewise contributes 0 hours". -/
theorem C5_fds_feriados_zero_cex :
    ([2] : List Int).contains 2 = true ∧
      (2 : Int) % 7 < 5 ∧
      Calculadora.contribDia [] [2] 2 0 100000 = 0 ∧
      Metricas.ehDiaUtil 2 = true ∧
      Metricas.contribDia 2 0 100000 = 10 ∧
      Metricas.horasUteis 3360 3960 = 10 := by
  refine ⟨by decide, by decide, ?_, by decide, ?_, ?_⟩
  · exact contribDia_of_nao_util [] [2] 2 0 100000 (by decide)
  · norm_num [Metricas.contribDia, Metricas.ehDiaUtil, Metricas.HORA_INICIO,
      Metricas.HORA_FIM]
  · norm_num [Metricas.horasUteis, Metricas.somaDias, Metricas.contribDia,
      Metricas.ehDiaUtil, Metricas.SLA_DATA_INICIO, Metricas.HORA_INICIO,
      Metricas.HORA_FIM, round4, round_eq]

theorem pausadoTotal_agora (inicio fim agora1 agora2 : Int)
    (pausas : List (Int × Option Int)) (h1 : fim ≤ agora1) (h2 : fim ≤ agora2) :
    Metricas.pausadoTotal inicio fim agora1 pausas =
      Metricas.pausadoTotal inicio fim agora2 pausas := by
  induction pausas with
  | nil => rfl
  | cons p resto ih =>
    obtain ⟨pIni, pFim⟩ := p
    simp only [Metricas.pausadoTotal, ih]
    congr 1
    cases pFim with
    | some x => rfl
    | none =>
      simp only [Option.getD, min_eq_right h1, min_eq_right h2]

theorem horasUteisComPausas_agora (inicio fim agora1 agora2 : Int)
    (pausas : List (Int × Option Int)) (h1 : fim ≤ agora1) (h2 : fim ≤ agora2) :
    Metricas.horasUteisComPausas inicio fim pausas agora1 =
      Metricas.horasUteisComPausas inicio fim pausas agora2 := by
  simp only [Metricas.horasUteisComPausas,
    pausadoTotal_agora inicio fim agora1 agora2 pausas h1 h2]

def respostaCampos (r : Metricas.ResultadoSLA) : ℚ × ℚ × ℚ × ℚ × Bool × Bool × Bool :=
  (r.resposta_trabalhado_horas, r.resposta_pausado_horas, r.resposta_limite_horas,
   r.percentual_resposta, r.resposta_em_dia, r.resposta_em_risco, r.resposta_vencida)

/-- C6: once `data_primeira_resposta` is set, the response clock is measured
as `business_hours_with_pauses(open, first_response, pausas)`; all response
fields of the evaluation are independent of the evaluation instant (for any
two instants at or after the first response), and a ticket whose frozen
worked hours are within the limit is never marked response-breached. -/
theorem C6_resposta_congelada (configs : String → Option Metricas.ConfigSLA)
    (pausas : List (Int × Option Int)) (agora1 agora2 : Int)
    (c : Metricas.Chamado) (dpr : Int)
    (hdpr : c.data_primeira_resposta = some dpr)
    (h1 : dpr ≤ agora1) (h2 : dpr ≤ agora2) :
    (Option.map respostaCampos (Metricas.calcularSlaChamado configs pausas agora1 c) =
      Option.map respostaCampos (Metricas.calcularSlaChamado configs pausas agora2 c)) ∧
    (∀ (abertura : Int) (r : Metricas.ResultadoSLA),
      c.data_abertura = some abertura →
      Metricas.calcularSlaChamado configs pausas agora1 c = some r →
      r.resposta_trabalhado_horas =
        (Metricas.horasUteisComPausas abertura dpr pausas agora1).1 ∧
      (r.resposta_trabalhado_horas ≤ r.resposta_limite_horas →
        r.resposta_vencida = false)) := by
  have hpausa : ∀ ab : Int, Metricas.horasUteisComPausas ab dpr pausas agora1 =
      Metricas.horasUteisComPausas ab dpr pausas agora2 := fun ab =>
    horasUteisComPausas_agora ab dpr agora1 agora2 pausas h1 h2
  constructor
  · cases habr : c.data_abertura with
    | none => simp [Metricas.calcularSlaChamado, habr]
    | some abertura =>
      by_cases hab : abertura < Metricas.SLA_DATA_INICIO
      · simp [Metricas.calcularSlaChamado, habr, if_pos hab]
      · cases hcfg : Metricas.configLookup configs c with
        | none => simp [Metricas.calcularSlaChamado, habr, if_neg hab, hcfg]
        | some cfg =>
          simp only [Metricas.calcularSlaChamado, habr, if_neg hab, hcfg, hdpr,
            Option.map_some']
          dsimp only [respostaCampos]
          rw [hpausa abertura]
  · intro abertura r habr hr
    by_cases hab : abertura < Metricas.SLA_DATA_INICIO
    · simp [Metricas.calcularSlaChamado, habr, if_pos hab] at hr
    · cases hcfg : Metricas.configLookup configs c with
      | none => simp [Metricas.calcularSlaChamado, habr, if_neg hab, hcfg] at hr
      | some cfg =>
        simp only [Metricas.calcularSlaChamado, habr, if_neg hab, hcfg, hdpr,
          Option.some.injEq] at hr
        subst hr
        dsimp only
        refine ⟨rfl, ?_⟩
        intro hle
        exact decide_eq_false (not_lt.mpr hle)

/-- C7: with no matching configuration the calculator returns the zeroed
`_criar_resultado_vazio` result — every numeric metric 0 and every risk and
breach flag false — and the metrics evaluator returns `none` when neither the
ticket's priority key nor the `normal` fallback has a configuration.  Both
paths are total functions: no exception reaches the aggregate caller. -/
theorem C7_config_ausente_degrada :
    (∀ (horarios : List (Int × Int × Int)) (feriados : List Int)
        (st : List Calculadora.PausaSLA) (agora : Int) (ch : Calculadora.Chamado),
      Calculadora.calcularSla none horarios feriados st agora ch =
        Calculadora.criarResultadoVazio) ∧
    (Calculadora.criarResultadoVazio.tempo_resposta_limite_horas = 0 ∧
      Calculadora.criarResultadoVazio.tempo_resposta_decorrido_horas = 0 ∧
      Calculadora.criarResultadoVazio.tempo_resposta_pausado_horas = 0 ∧
      Calculadora.criarResultadoVazio.percentual_resposta = 0 ∧
      Calculadora.criarResultadoVazio.resposta_em_risco = false ∧
      Calculadora.criarResultadoVazio.resposta_vencida = false ∧
      Calculadora.criarResultadoVazio.tempo_resolucao_limite_horas = 0 ∧
      Calculadora.criarResultadoVazio.tempo_resolucao_decorrido_horas = 0 ∧
      Calculadora.criarResultadoVazio.tempo_resolucao_pausado_horas = 0 ∧
      Calculadora.criarResultadoVazio.percentual_resolucao = 0 ∧
      Calculadora.criarResultadoVazio.resolucao_em_risco = false ∧
      Calculadora.criarResultadoVazio.resolucao_vencida = false) ∧
    (∀ (configs : String → Option Metricas.ConfigSLA)
        (pausas : List (Int × Option Int)) (agora : Int) (c : Metricas.Chamado),
      configs ((c.prioridade.getD "normal").toLower) = none →
      configs "normal" = none →
      Metricas.calcularSlaChamado configs pausas agora c = none) := by
  refine ⟨fun _ _ _ _ _ => rfl, ?_, ?_⟩
  · exact ⟨rfl, rfl, rfl, rfl, rfl, rfl, rfl, rfl, rfl, rfl, rfl, rfl⟩
  · intro configs pausas agora c hk hn
    have hcl : Metricas.configLookup configs c = none := by
      simp [Metricas.configLookup, hk, hn]
    cases habr : c.data_abertura with
    | none => simp [Metricas.calcularSlaChamado, habr]
    | some ab =>
      by_cases hab : ab < Metricas.SLA_DATA_INICIO
      · simp [Metricas.calcularSlaChamado, habr, if_pos hab]
      · simp [Metricas.calcularSlaChamado, habr, if_neg hab, hcl]

theorem contagemAbertas_zero_of_pausaAtiva_none (st : List Calculadora.PausaSLA)
    (cid : Nat) (h : Calculadora.pausaAtiva st cid = none) :
    Servico.contagemAbertas st cid = 0 := by
  rw [Calculadora.pausaAtiva, List.find?_eq_none] at h
  rw [Servico.contagemAbertas, List.countP_eq_zero]
  intro p hp
  simpa using h p hp

theorem contagemAbertas_append (st : List Calculadora.PausaSLA) (cid : Nat)
    (p : Calculadora.PausaSLA) :
    Servico.contagemAbertas (st ++ [p]) cid =
      Servico.contagemAbertas st cid +
        (if p.chamado_id = cid ∧ p.fim.isNone then 1 else 0) := by
  simp only [Servico.contagemAbertas, List.countP_append, List.countP_cons,
    List.countP_nil]
  congr 1
  simp [Bool.and_eq_true, decide_eq_true_eq]

theorem contagemAbertas_fecharPrimeira_le (st : List Calculadora.PausaSLA)
    (cid : Nat) (t : Int) :
    Servico.contagemAbertas (Calculadora.fecharPrimeira st cid t) cid ≤
      Servico.contagemAbertas st cid := by
  induction st with
  | nil => exact le_refl _
  | cons p resto ih =>
    by_cases hp : p.chamado_id = cid ∧ p.fim.isNone = true
    · have hpb : (decide (p.chamado_id = cid) && p.fim.isNone) = true := by
        simp [hp.1, hp.2]
      simp only [Calculadora.fecharPrimeira, hpb, if_true, Servico.contagemAbertas,
        List.countP_cons]
      simp
    · have hpb : ¬((decide (p.chamado_id = cid) && p.fim.isNone) = true) := by
        simp only [Bool.and_eq_true, decide_eq_true_eq]
        exact hp
      simp only [Calculadora.fecharPrimeira, if_neg hpb, Servico.contagemAbertas,
        List.countP_cons]
      have ih' := ih
      simp only [Servico.contagemAbertas] at ih'
      omega

theorem contagemAbertas_fecharTodas (st : List Calculadora.PausaSLA)
    (cid : Nat) (t : Int) :
    Servico.contagemAbertas (Servico.fecharTodas st cid t) cid = 0 := by
  induction st with
  | nil => rfl
  | cons p resto ih =>
    by_cases hp : (decide (p.chamado_id = cid) && p.fim.isNone) = true
    · simp only [Servico.fecharTodas, hp, if_true, Servico.contagemAbertas,
        List.countP_cons]
      simp only [Servico.contagemAbertas] at ih
      simp [ih]
    · simp only [Servico.fecharTodas, if_neg hp, Servico.contagemAbertas,
        List.countP_cons]
      simp only [Servico.contagemAbertas] at ih
      simp [ih, hp]

theorem invariante_passo (cid : Nat) (st : List Calculadora.PausaSLA)
    (op : Servico.OpPausa) (h : Servico.contagemAbertas st cid ≤ 1) :
    Servico.contagemAbertas (Servico.aplicarOp cid st op) cid ≤ 1 := by
  cases op with
  | pausarAuto s t =>
    by_cases hc : Calculadora.STATUS_PAUSA.contains s = true
    · simp only [Servico.aplicarOp, Calculadora.pausarAutomaticamente, hc,
        Bool.not_true]
      cases hativa : Calculadora.pausaAtiva st cid with
      | some p => simpa using h
      | none =>
        have h0 := contagemAbertas_zero_of_pausaAtiva_none st cid hativa
        simp only [Bool.false_eq_true, if_false]
        rw [contagemAbertas_append]
        simp [h0]
    · have hcb : Calculadora.STATUS_PAUSA.contains s = false := by
        simpa using hc
      simp only [Servico.aplicarOp, Calculadora.pausarAutomaticamente, hcb]
      simpa using h
  | retomarAuto s t =>
    by_cases hc : Calculadora.STATUS_PAUSA.contains s = true
    · simp only [Servico.aplicarOp, Calculadora.retomarAutomaticamente, hc, if_true]
      exact h
    · simp only [Bool.not_eq_true] at hc
      simp only [Servico.aplicarOp, Calculadora.retomarAutomaticamente, hc,
        Bool.false_eq_true, if_false]
      cases hativa : Calculadora.pausaAtiva st cid with
      | none => exact h
      | some p =>
        exact le_trans (contagemAbertas_fecharPrimeira_le st cid t) h
  | servico s t =>
    by_cases hc : (["Aguardando"] : List String).contains s = true
    · simp only [Servico.aplicarOp, Servico.pausarSlaChamado, hc, if_true]
      cases hativa : Calculadora.pausaAtiva st cid with
      | some p => exact h
      | none =>
        have h0 := contagemAbertas_zero_of_pausaAtiva_none st cid hativa
        rw [contagemAbertas_append]
        simp [h0]
    · simp only [Bool.not_eq_true] at hc
      simp only [Servico.aplicarOp, Servico.pausarSlaChamado, hc,
        Bool.false_eq_true, if_false]
      simp [contagemAbertas_fecharTodas]

/-- C8: starting from a pause table with no open pause for the ticket, any
sequence of the pause operations the application runs (automatic pause,
automatic resume, and the live service entry point) leaves at most one open
pause interval for that ticket; and the automatic open-pause operation is a
no-op returning the existing row when an open pause already exists. -/
theorem C8_pausa_unica (cid : Nat) (st : List Calculadora.PausaSLA) :
    (Servico.contagemAbertas st cid = 0 →
      ∀ ops : List Servico.OpPausa,
        Servico.contagemAbertas (ops.foldl (Servico.aplicarOp cid) st) cid ≤ 1) ∧
    (∀ (s : String) (t : Int) (p : Calculadora.PausaSLA),
      Calculadora.STATUS_PAUSA.contains s = true →
      Calculadora.pausaAtiva st cid = some p →
      Calculadora.pausarAutomaticamente st cid s t = (st, some p)) := by
  constructor
  · intro h0 ops
    have geral : ∀ (ops : List Servico.OpPausa) (st' : List Calculadora.PausaSLA),
        Servico.contagemAbertas st' cid ≤ 1 →
        Servico.contagemAbertas (ops.foldl (Servico.aplicarOp cid) st') cid ≤ 1 := by
      intro ops
      induction ops with
      | nil => intro st' h; exact h
      | cons op resto ih =>
        intro st' h
        exact ih _ (invariante_passo cid st' op h)
    exact geral ops st (by omega)
  · intro s t p hcont hativa
    have hmem : s ∈ Calculadora.STATUS_PAUSA := by simpa using hcont
    simp [Calculadora.pausarAutomaticamente, hcont, hativa, hmem]

theorem conta_separa (rs : List Metricas.ResultadoSLA) :
    Metricas.contaVencidos rs = (Metricas.listaVencidos rs).length +
      rs.countP (fun x => x.pausado && x.resolucao_vencida) ∧
    Metricas.contaEmRisco rs = (Metricas.listaEmRisco rs).length +
      rs.countP (fun x => x.pausado && x.resolucao_em_risco) +
      rs.countP (fun x => !x.pausado && x.resolucao_vencida && x.resolucao_em_risco) := by
  induction rs with
  | nil => exact ⟨rfl, rfl⟩
  | cons a t ih =>
    obtain ⟨ih1, ih2⟩ := ih
    simp only [Metricas.contaVencidos, Metricas.contaEmRisco, Metricas.listaVencidos,
      Metricas.listaEmRisco, List.countP_cons, List.filter_cons] at *
    constructor
    · cases ha : a.pausado <;> cases hv : a.resolucao_vencida <;>
        simp [ha, hv, ih1] <;> omega
    · cases ha : a.pausado <;> cases hv : a.resolucao_vencida <;>
        cases hrk : a.resolucao_em_risco <;> simp [ha, hv, hrk, ih2] <;> omega

/-- C9 (amended): the dashboard's top-level lists are mutually exclusive and
decided in the priority order paused, then breached, then at-risk (membership
in each list is exactly the corresponding arm of the `elif` chain); but the
per-priority breakdown increments `pausados` independently of the resolution
classification, so its `vencidos` and `em_risco` counters also count paused
tickets — `contaVencidos` splits as the exclusive bucket plus the paused
breached tickets, and `contaEmRisco` as the exclusive bucket plus the paused
at-risk ones (plus the vacuous breached-and-at-risk overlap).  (As literally
stated, mutual exclusivity in the per-priority breakdown is false; the
on-time count `total - at-risk - breached` also counts paused tickets as
compliant — see the counterexample.) -/
theorem C9_baldes_exclusivos (rs : List Metricas.ResultadoSLA) (s : Metricas.ResultadoSLA)
    (hs : s ∈ rs) :
    (s ∈ Metricas.listaPausados rs ↔ s.pausado = true) ∧
    (s ∈ Metricas.listaVencidos rs ↔
      (s.pausado = false ∧ s.resolucao_vencida = true)) ∧
    (s ∈ Metricas.listaEmRisco rs ↔
      (s.pausado = false ∧ s.resolucao_vencida = false ∧ s.resolucao_em_risco = true)) ∧
    (Metricas.contaVencidos rs = (Metricas.listaVencidos rs).length +
      rs.countP (fun x => x.pausado && x.resolucao_vencida)) ∧
    (Metricas.contaEmRisco rs = (Metricas.listaEmRisco rs).length +
      rs.countP (fun x => x.pausado && x.resolucao_em_risco) +
      rs.countP (fun x => !x.pausado && x.resolucao_vencida && x.resolucao_em_risco)) := by
  refine ⟨?_, ?_, ?_, (conta_separa rs).1, (conta_separa rs).2⟩
  · simp [Metricas.listaPausados, List.mem_filter, hs]
  · simp [Metricas.listaVencidos, List.mem_filter, hs]
  · simp [Metricas.listaEmRisco, List.mem_filter, hs, and_assoc]

def configsC9 : String → Option Metricas.ConfigSLA :=
  fun _ => some { resposta := 1, resolucao := 2, risco := 80 }

def chamadoC9 : Metricas.Chamado :=
  { id := 5, codigo := "CH-5", prioridade := some "Alta", status := some "Aguardando",
    data_abertura := some 480, data_primeira_resposta := some 510,
    data_conclusao := none, cancelado_em := none, deletado_em := none }

def resultadoC9 : Metricas.ResultadoSLA :=
  { chamado_id := 5, codigo := "CH-5", prioridade := some "Alta", status := "Aguardando",
    pausado := true, ativo := false,
    resolucao_trabalhado_horas := 7/4, resolucao_pausado_horas := 0,
    resolucao_limite_horas := 2, percentual_resolucao := 175/2,
    resolucao_em_dia := false, resolucao_em_risco := true, resolucao_vencida := false,
    resposta_trabalhado_horas := 1/2, resposta_pausado_horas := 0,
    resposta_limite_horas := 1, percentual_resposta := 50,
    resposta_em_dia := true, resposta_em_risco := false, resposta_vencida := false }

/-- C9 counterexample: an evaluated ticket that is simultaneously paused and
resolution-at-risk.  In the per-priority breakdown it increments both the
`pausados` and the `em_risco` counters (1 each out of a total of 1), and at
top level it sits in the paused list while the derived on-time count still
counts it — it is not assigned to exactly one bucket. -/
theorem C9_baldes_exclusivos_cex :
    Metricas.calcularSlaChamado configsC9 [] 585 chamadoC9 = some resultadoC9 ∧
      Metricas.contaPausados [resultadoC9] = 1 ∧
      Metricas.contaEmRisco [resultadoC9] = 1 ∧
      (Metricas.listaPausados [resultadoC9]).length = 1 ∧
      Metricas.contagemEmDia [resultadoC9] = 1 := by
  refine ⟨?_, ?_, ?_, ?_, ?_⟩
  · norm_num [Metricas.calcularSlaChamado, Metricas.configLookup, configsC9, chamadoC9,
      resultadoC9,
      Metricas.horasUteisComPausas, Metricas.pausadoTotal, Metricas.horasUteis,
      Metricas.somaDias, Metricas.contribDia, Metricas.ehDiaUtil,
      Metricas.SLA_DATA_INICIO, Metricas.HORA_INICIO, Metricas.HORA_FIM,
      Metricas.STATUS_FINAIS, Metricas.STATUS_PAUSADOS, Metricas.STATUS_ATIVOS,
      round4, round1, round_eq, Metricas.ResultadoSLA.mk.injEq]
    decide
  · rfl
  · rfl
  · rfl
  · rfl

theorem C4_identidade_dia_unico_witness :
    ((540 : Int) < 600 ∧ (540 : Int) / 1440 = (600 : Int) / 1440 ∧
      Calculadora.obterHorarioComercial [] [] ((540 : Int) / 1440) = some (480, 1080) ∧
      (480 : Int) ≤ (540 : Int) % 1440 ∧ (600 : Int) % 1440 ≤ 1080 ∧
      Calculadora.calcularHorasUteis [] [] 540 600 = ((600 - 540 : Int) : ℚ) / 60) ∧
    ((0 : Int) ≤ 540 ∧ Metricas.ehDiaUtil ((540 : Int) / 1440) = true ∧
      Metricas.HORA_INICIO ≤ (540 : Int) % 1440 ∧
      (600 : Int) % 1440 ≤ Metricas.HORA_FIM ∧
      Metricas.horasUteis 540 600 = round4 (((600 - 540 : Int) : ℚ) / 60)) ∧
    ((-9480 : Int) ≤ Metricas.SLA_DATA_INICIO ∧
      Metricas.horasUteis (-9540) (-9480) = 0) :=
  ⟨⟨by norm_num, by norm_num, by decide, by norm_num, by norm_num,
    C4_identidade_dia_unico.1 [] [] 540 600 480 1080 (by norm_num) (by norm_num) (by decide)
      (by norm_num) (by norm_num)⟩,
   ⟨by norm_num, by decide, by decide, by decide,
    C4_identidade_dia_unico.2.1 540 600 (by norm_num) (by norm_num) (by norm_num) (by decide)
      (by decide) (by decide)⟩,
   ⟨by decide,
    C4_identidade_dia_unico.2.2 (-9540) (-9480) (by decide)⟩⟩

theorem C5_fds_feriados_zero_witness :
    ((5 : Int) ≤ 5 % 7 ∧ Calculadora.contribDia [] [] 5 0 10000 = 0) ∧
    (([2] : List Int).contains 2 = true ∧ Calculadora.contribDia [] [2] 2 0 10000 = 0) ∧
    ((5 : Int) ≤ 5 % 7 ∧ Metricas.contribDia 5 0 10000 = 0) ∧
    ((∀ d : Int, (7200 : Int) / 1440 ≤ d → d ≤ (9500 : Int) / 1440 →
        Calculadora.ehDiaUtil [] d = false) ∧
      Calculadora.calcularHorasUteis [] [] 7200 9500 = 0) ∧
    ((1 : Int) % 7 < 5 ∧ (0 : Int) ≤ 1 * 1440 + Metricas.HORA_INICIO ∧
      (1 : Int) * 1440 + Metricas.HORA_FIM ≤ 10000 ∧
      Metricas.contribDia 1 0 10000 = 10) := by
  have hdias : ∀ d : Int, (7200 : Int) / 1440 ≤ d → d ≤ (9500 : Int) / 1440 →
      Calculadora.ehDiaUtil [] d = false := by
    intro d h1 h2
    norm_num at h1 h2
    have : d = 5 ∨ d = 6 := by omega
    rcases this with rfl | rfl <;> decide
  exact ⟨⟨by decide, C5_fds_feriados_zero.1 [] [] 5 0 10000 (by decide)⟩,
    ⟨by decide, C5_fds_feriados_zero.2.1 [] [2] 2 0 10000 (by decide)⟩,
    ⟨by decide, C5_fds_feriados_zero.2.2.1 5 0 10000 (by decide)⟩,
    ⟨hdias, C5_fds_feriados_zero.2.2.2.1 [] [] 7200 9500 hdias⟩,
    ⟨by decide, by decide, by decide,
      C5_fds_feriados_zero.2.2.2.2 1 0 10000 (by decide) (by decide) (by decide)⟩⟩

def configsC6 : String → Option Metricas.ConfigSLA :=
  fun _ => some { resposta := 2, resolucao := 8, risco := 80 }

def chamadoC6 : Metricas.Chamado :=
  { id := 4, codigo := "CH-4", prioridade := some "Alta",
    status := some "Em atendimento",
    data_abertura := some 480, data_primeira_resposta := some 510,
    data_conclusao := none, cancelado_em := none, deletado_em := none }

theorem C6_resposta_congelada_witness :
    (chamadoC6.data_primeira_resposta = some 510 ∧ (510 : Int) ≤ 600 ∧
        (510 : Int) ≤ 720) ∧
    ((Option.map respostaCampos (Metricas.calcularSlaChamado configsC6 [] 600 chamadoC6) =
        Option.map respostaCampos (Metricas.calcularSlaChamado configsC6 [] 720 chamadoC6)) ∧
      (∀ (abertura : Int) (r : Metricas.ResultadoSLA),
        chamadoC6.data_abertura = some abertura →
        Metricas.calcularSlaChamado configsC6 [] 600 chamadoC6 = some r →
        r.resposta_trabalhado_horas =
          (Metricas.horasUteisComPausas abertura 510 [] 600).1 ∧
        (r.resposta_trabalhado_horas ≤ r.resposta_limite_horas →
          r.resposta_vencida = false))) :=
  ⟨⟨rfl, by norm_num, by norm_num⟩,
   C6_resposta_congelada configsC6 [] 600 720 chamadoC6 510 rfl (by norm_num) (by norm_num)⟩

def chamadoCalcC7 : Calculadora.Chamado :=
  { id := 6, prioridade := "Urgente", status := "Aberto", data_abertura := 480,
    data_primeira_resposta := none, data_conclusao := none, cancelado_em := none }

def chamadoC7 : Metricas.Chamado :=
  { id := 7, codigo := "CH-7", prioridade := some "Urgente", status := some "Aberto",
    data_abertura := some 480, data_primeira_resposta := none,
    data_conclusao := none, cancelado_em := none, deletado_em := none }

theorem C7_config_ausente_degrada_witness :
    (Calculadora.calcularSla none [] [] [] 0 chamadoCalcC7 =
        Calculadora.criarResultadoVazio) ∧
    ((fun _ => (none : Option Metricas.ConfigSLA))
        ((chamadoC7.prioridade.getD "normal").toLower) = none ∧
      (fun _ => (none : Option Metricas.ConfigSLA)) "normal" = none ∧
      Metricas.calcularSlaChamado (fun _ => none) [] 0 chamadoC7 = none) :=
  ⟨C7_config_ausente_degrada.1 [] [] [] 0 chamadoCalcC7,
    ⟨rfl, rfl, C7_config_ausente_degrada.2.2 (fun _ => none) [] 0 chamadoC7 rfl rfl⟩⟩

def pausaAbertaC8 : Calculadora.PausaSLA :=
  { chamado_id := 1, inicio := 5, fim := none, duracao_horas := 0,
    tipo := "status", status_pausante := some "Aguardando",
    motivo := "Pausa automática" }

def opsC8 : List Servico.OpPausa :=
  [.pausarAuto "Aguardando" 10, .pausarAuto "Em análise" 20,
   .servico "Em atendimento" 30, .servico "Aguardando" 40,
   .retomarAuto "Aberto" 50]

theorem C8_pausa_unica_witness :
    (Servico.contagemAbertas [] 1 = 0 ∧
      Servico.contagemAbertas (opsC8.foldl (Servico.aplicarOp 1) []) 1 ≤ 1) ∧
    (Calculadora.STATUS_PAUSA.contains "Aguardando" = true ∧
      Calculadora.pausaAtiva [pausaAbertaC8] 1 = some pausaAbertaC8 ∧
      Calculadora.pausarAutomaticamente [pausaAbertaC8] 1 "Aguardando" 99 =
        ([pausaAbertaC8], some pausaAbertaC8)) :=
  ⟨⟨rfl, (C8_pausa_unica 1 []).1 rfl opsC8⟩,
   ⟨by decide, rfl,
    (C8_pausa_unica 1 [pausaAbertaC8]).2 "Aguardando" 99 pausaAbertaC8 (by decide) rfl⟩⟩

theorem C9_baldes_exclusivos_witness :
    resultadoC9 ∈ [resultadoC9] ∧
    ((resultadoC9 ∈ Metricas.listaPausados [resultadoC9] ↔
        resultadoC9.pausado = true) ∧
    (resultadoC9 ∈ Metricas.listaVencidos [resultadoC9] ↔
      (resultadoC9.pausado = false ∧ resultadoC9.resolucao_vencida = true)) ∧
    (resultadoC9 ∈ Metricas.listaEmRisco [resultadoC9] ↔
      (resultadoC9.pausado = false ∧ resultadoC9.resolucao_vencida = false ∧
        resultadoC9.resolucao_em_risco = true)) ∧
    (Metricas.contaVencidos [resultadoC9] =
      (Metricas.listaVencidos [resultadoC9]).length +
        ([resultadoC9] : List Metricas.ResultadoSLA).countP
          (fun x => x.pausado && x.resolucao_vencida)) ∧
    (Metricas.contaEmRisco [resultadoC9] =
      (Metricas.listaEmRisco [resultadoC9]).length +
        ([resultadoC9] : List Metricas.ResultadoSLA).countP
          (fun x => x.pausado && x.resolucao_em_risco) +
        ([resultadoC9] : List Metricas.ResultadoSLA).countP
          (fun x => !x.pausado && x.resolucao_vencida && x.resolucao_em_risco))) :=
  ⟨List.mem_singleton.mpr rfl,
    C9_baldes_exclusivos [resultadoC9] resultadoC9 (List.mem_singleton.mpr rfl)⟩

/-- C4 counterexample, in two parts.  First, a one-minute span (Monday 09:00
to 09:01) lying entirely inside the business window of one business day: the
metrics accumulator returns `round(1/60, 4) = 0.0167`, which is not
`(end - start)` in hours (`1/60 = 0.01666…`) — the claimed exact identity
fails at the 4-decimal rounding the accumulator applies on return.  Second, a
one-hour span (Monday 2026-02-09, 09:00 to 10:00, the week before the
cutover) inside the business window of one business day: the metrics
accumulator clamps the start to the epoch and returns 0 instead of one
hour. -/
theorem C4_identidade_dia_unico_cex :
    (((0 : Int) ≤ 540 ∧ (540 : Int) < 541 ∧
      (540 : Int) / 1440 = (541 : Int) / 1440 ∧
      Metricas.ehDiaUtil ((540 : Int) / 1440) = true ∧
      Metricas.HORA_INICIO ≤ (540 : Int) % 1440 ∧
      (541 : Int) % 1440 ≤ Metricas.HORA_FIM) ∧
    Metricas.horasUteis 540 541 = 167 / 10000 ∧
    (167 / 10000 : ℚ) ≠ ((541 - 540 : Int) : ℚ) / 60) ∧
    (((-9540 : Int) < -9480 ∧
      (-9540 : Int) / 1440 = (-9480 : Int) / 1440 ∧
      Metricas.ehDiaUtil ((-9540 : Int) / 1440) = true ∧
      Metricas.HORA_INICIO ≤ (-9540 : Int) % 1440 ∧
      (-9480 : Int) % 1440 ≤ Metricas.HORA_FIM) ∧
    Metricas.horasUteis (-9540) (-9480) = 0 ∧
    (0 : ℚ) ≠ round4 (((-9480 - -9540 : Int) : ℚ) / 60)) := by
  refine ⟨⟨by decide, ?_, by norm_num⟩, ⟨by decide, ?_, ?_⟩⟩
  · norm_num [Metricas.horasUteis, Metricas.somaDias, Metricas.contribDia,
      Metricas.ehDiaUtil, Metricas.SLA_DATA_INICIO, Metricas.HORA_INICIO,
      Metricas.HORA_FIM, round4, round_eq]
  · norm_num [Metricas.horasUteis, Metricas.SLA_DATA_INICIO]
  · norm_num [round4, round_eq]
